import Mathlib

/-!
Shallow embedding of the decision engine of the Mission100M trading bot:
the technical-indicator computation (`src/lib/indicators.js`, class
`TechnicalIndicators`) and the rule-based strategy
(`src/lib/strategy.js`, which contains two historical variants:
`ProfessionalTradingStrategy` and the legacy `TradingStrategy`).

Conventions of the embedding:
- JavaScript numbers are modelled as rationals (`ℚ`).  `Math.sqrt` (used
  only by volatility, whose numeric value no claim depends on) is
  approximated by `Rat.sqrt`.
- JavaScript `x || d` on a possibly-absent number is modelled by
  `Option.getD` when the fallback is `0` and by an explicit zero test when
  a present-but-zero value also falls back (0 is falsy in JS).
- Decimal formatting (`toFixed`, `toLocaleString`) in reasoning strings is
  presentation only; the embedding prints rationals with `ratStr`.
- Fallible code returns `Except`; all other functions are total, as the
  source never throws outside the one guard in `TechnicalIndicators.calculate`.
-/

namespace Mission100M

/-- Trade action of a Decision. -/
inductive Action where
  | BUY
  | SELL
  | HOLD
deriving DecidableEq, Repr

/-- Urgency level of a Decision (professional variant). -/
inductive Urgency where
  | LOW
  | MEDIUM
  | HIGH
  | IMMEDIATE
deriving DecidableEq, Repr

/-- Trend classification used by both engines. -/
inductive Trend where
  | UPTREND
  | DOWNTREND
  | NEUTRAL
  | SIDEWAYS
deriving DecidableEq, Repr

/-- An element of a `signals` array: either a plain string or an object
with `type` and `strength` fields, as produced by the indicator engine
and consumed by the strategy filters. -/
inductive SignalVal where
  | str (s : String)
  | obj (type : String) (strength : String)
deriving DecidableEq, Repr

/-- One historical price bar; only `close` and `volume` are read by the
embedded code. -/
structure Bar where
  close : ℚ
  volume : ℚ
deriving DecidableEq, Repr

/-- A brokerage position as the strategy reads it. `highWaterMark` is
absent (`none`) when the stored position has no such field. -/
structure Position where
  quantity : ℚ
  averagePrice : ℚ
  highWaterMark : Option ℚ := none
deriving DecidableEq, Repr

/-- The last recorded trade; only its timestamp (milliseconds) is read,
by the legacy cooldown check. -/
structure LastTrade where
  timestamp : ℚ
deriving DecidableEq, Repr

/-- Account information; passed through to risk assessment, which does
not read any field of it in the source. -/
structure AccountInfo where
  equity : ℚ := 0
deriving DecidableEq, Repr

/-- The `technicalData` object handed to `analyze`: live price and
volume, the signal list, and the rsi / sma series (lists of the entries'
`value` fields); `none` models an absent field. -/
structure TechnicalData where
  currentPrice : Option ℚ := none
  volume : Option ℚ := none
  signals : List SignalVal := []
  rsi : Option (List ℚ) := none
  sma : Option (List ℚ) := none
  historical : List Bar := []
deriving DecidableEq, Repr

/-- Decision returned by `ProfessionalTradingStrategy.analyze`. -/
structure Decision where
  action : Action
  quantity : ℚ
  confidence : ℚ
  urgency : Urgency
  reasoning : List String
deriving DecidableEq, Repr

/-- Decision returned by the legacy `TradingStrategy.analyze` (that
variant has no urgency field). -/
structure LegacyDecision where
  action : Action
  quantity : ℚ
  confidence : ℚ
  reasoning : List String
deriving DecidableEq, Repr

/-- Risk metrics produced by `assessRisk`. -/
structure RiskMetrics where
  shouldPause : Bool
  pauseReasons : List String
  positionSizeMultiplier : ℚ
  riskLevel : String
deriving DecidableEq, Repr

/-- Market data input of the indicator engine. -/
structure MarketData where
  historical : List Bar
  currentPrice : ℚ
  volume : ℚ
deriving DecidableEq, Repr

/-- One MACD output record `{macd, signal, histogram}`. -/
structure MACDValue where
  macd : ℚ
  signal : ℚ
  histogram : ℚ
deriving DecidableEq, Repr

/-- The indicator snapshot returned by `TechnicalIndicators.calculate`;
`none` models the JS `undefined` of an empty series access. -/
structure Snapshot where
  currentPrice : ℚ
  sma20 : Option ℚ
  sma50 : Option ℚ
  rsi : Option ℚ
  macd : Option MACDValue
  momentum : Option ℚ
  volumeRatioValue : ℚ
  trend : Trend
  signals : List SignalVal
deriving DecidableEq, Repr

/-- Rendering of a rational for reasoning strings (stand-in for the
JS decimal formatting, which is presentation only). -/
def ratStr (q : ℚ) : String := toString q

/-- Char-list prefix test used by the substring check. -/
def hasPrefixChars : List Char → List Char → Bool
  | _, [] => true
  | [], _ :: _ => false
  | c :: l, d :: p => (c == d) && hasPrefixChars l p

/-- Char-list substring test. -/
def strContainsAux : List Char → List Char → Bool
  | [], p => p.isEmpty
  | c :: t, p => hasPrefixChars (c :: t) p || strContainsAux t p

/-- JavaScript `s.includes(pat)`. -/
def strContains (s pat : String) : Bool := strContainsAux s.data pat.data

namespace TechnicalIndicators

/-- Arithmetic mean of a list (0 on the empty list; every call site
guards non-emptiness). -/
def listMean (l : List ℚ) : ℚ := l.foldl (· + ·) 0 / (l.length : ℚ)

/-- Streaming SMA of `trading-signals`: one output per update once
`period` values have been seen, each the mean of the last `period`
closes. -/
def calculateSMA (prices : List ℚ) (period : ℕ) : List ℚ :=
  (List.range prices.length).filterMap fun i =>
    if period ≤ i + 1 then some (listMean ((prices.take (i + 1)).drop (i + 1 - period)))
    else none

/-- Consecutive deltas `close[i] - close[i-1]`. -/
def deltas (prices : List ℚ) : List ℚ :=
  match prices with
  | [] => []
  | _ :: t => List.zipWith (fun b a => b - a) t prices

/-- Wilder smoothing step folded over the remaining gains/losses,
emitting one RSI value per step from running average gain/loss. -/
def rsiFold (period : ℕ) (avgGain avgLoss : ℚ) : List (ℚ × ℚ) → List ℚ
  | [] => []
  | (g, l) :: rest =>
    let avgGain := (avgGain * ((period : ℚ) - 1) + g) / (period : ℚ)
    let avgLoss := (avgLoss * ((period : ℚ) - 1) + l) / (period : ℚ)
    rsiValue avgGain avgLoss :: rsiFold period avgGain avgLoss rest
where
  /-- RSI from running averages; 100 when the average loss is zero. -/
  rsiValue (avgGain avgLoss : ℚ) : ℚ :=
    if avgLoss = 0 then 100 else 100 - 100 / (1 + avgGain / avgLoss)

/-- Streaming Wilder RSI of `trading-signals`: stable from the
`period+1`-th close on (values irrelevant to the claims; the stream
shape is what matters). -/
def calculateRSI (prices : List ℚ) (period : ℕ) : List ℚ :=
  let ds := deltas prices
  let gl := ds.map fun d => (max d 0, max (-d) 0)
  if period ≤ gl.length ∧ 0 < period then
    let first := gl.take period
    let avgGain := listMean (first.map Prod.fst)
    let avgLoss := listMean (first.map Prod.snd)
    rsiFold.rsiValue avgGain avgLoss :: rsiFold period avgGain avgLoss (gl.drop period)
  else []

/-- EMA stream with smoothing `2/(period+1)`, seeded with the first
value, one output per input. -/
def emaStream (period : ℕ) (prices : List ℚ) : List ℚ :=
  match prices with
  | [] => []
  | p :: rest =>
    let k : ℚ := 2 / ((period : ℚ) + 1)
    go k p rest
where
  go (k : ℚ) (acc : ℚ) : List ℚ → List ℚ
    | [] => [acc]
    | q :: rest => acc :: go k (acc + k * (q - acc)) rest

/-- Streaming MACD(12,26,9): macd line from the 26th close on, records
emitted once the 9-period signal EMA of the line is stable. -/
def calculateMACD (prices : List ℚ) : List MACDValue :=
  let fast := emaStream 12 prices
  let slow := emaStream 26 prices
  let line := (List.zipWith (fun f s => f - s) fast slow).drop 25
  let signalLine := emaStream 9 line
  let pairs := List.zipWith (fun l s => (l, s)) line signalLine
  (pairs.drop 8).map fun p => { macd := p.1, signal := p.2, histogram := p.1 - p.2 }

/-- Embedding of `calculateMomentum`: simple `period`-bar close difference. -/
def calculateMomentum (prices : List ℚ) (period : ℕ) : List ℚ :=
  (List.range prices.length).filterMap fun i =>
    if period ≤ i then
      some (((prices.get? i).getD 0) - ((prices.get? (i - period)).getD 0))
    else none

/-- Embedding of `determineTrend` of the indicator engine: price vs SMA20 vs SMA50
ordering (undefined last elements compare false in JS, hence SIDEWAYS). -/
def determineTrend (sma20 sma50 prices : List ℚ) : Trend :=
  match prices.getLast?, sma20.getLast?, sma50.getLast? with
  | some currentPrice, some currentSMA20, some currentSMA50 =>
    if currentSMA20 < currentPrice ∧ currentSMA50 < currentSMA20 then .UPTREND
    else if currentPrice < currentSMA20 ∧ currentSMA20 < currentSMA50 then .DOWNTREND
    else .SIDEWAYS
  | _, _, _ => .SIDEWAYS

/-- Embedding of `generateSignals`: categorical tags from the latest RSI, SMA pair and
MACD record.  A missing latest value yields no tag of that category
(JS comparisons against `undefined` are false; `calculate` never passes
empty lists here). -/
def generateSignals (prices sma20 sma50 rsi : List ℚ) (macd : List MACDValue) :
    List SignalVal :=
  let currentSMA20 := sma20.getLast?
  let currentSMA50 := sma50.getLast?
  let currentRSI := rsi.getLast?
  let currentMACD := macd.getLast?
  let _ := prices.getLast?
  let rsiSignals : List SignalVal :=
    match currentRSI with
    | some r =>
      if r < 30 then [.obj "RSI_OVERSOLD" "STRONG"]
      else if 70 < r then [.obj "RSI_OVERBOUGHT" "STRONG"]
      else []
    | none => []
  let smaSignals : List SignalVal :=
    match currentSMA20, currentSMA50 with
    | some a, some b =>
      if b < a then [.obj "SMA_BULLISH" "MEDIUM"]
      else if a < b then [.obj "SMA_BEARISH" "MEDIUM"]
      else []
    | _, _ => []
  let macdSignals : List SignalVal :=
    match currentMACD with
    | some m =>
      if m.signal < m.macd then [.obj "MACD_BULLISH" "MEDIUM"]
      else if m.macd < m.signal then [.obj "MACD_BEARISH" "MEDIUM"]
      else []
    | none => []
  rsiSignals ++ smaSignals ++ macdSignals

/-- Embedding of `TechnicalIndicators.calculate`: throws when fewer than 50 bars are
available, otherwise returns the indicator snapshot. -/
def calculate (marketData : MarketData) : Except String Snapshot :=
  let prices := marketData.historical.map Bar.close
  let volumes := marketData.historical.map Bar.volume
  if prices.length < 50 then
    .error "Not enough historical data for technical analysis"
  else
    let sma20 := calculateSMA prices 20
    let sma50 := calculateSMA prices 50
    let rsi := calculateRSI prices 14
    let macd := calculateMACD prices
    let momentum := calculateMomentum prices 10
    let avgVolume := (((volumes.drop (volumes.length - 20)).foldl (· + ·) 0) : ℚ) / 20
    let volumeRatioValue := marketData.volume / avgVolume
    .ok {
      currentPrice := marketData.currentPrice
      sma20 := sma20.getLast?
      sma50 := sma50.getLast?
      rsi := rsi.getLast?
      macd := macd.getLast?
      momentum := momentum.getLast?
      volumeRatioValue := volumeRatioValue
      trend := determineTrend sma20 sma50 prices
      signals := generateSignals prices sma20 sma50 rsi macd
    }

/-- True when `calculate` rejected the input for lack of data. -/
def isInsufficientData (r : Except String Snapshot) : Bool :=
  match r with
  | .error _ => true
  | .ok _ => false

end TechnicalIndicators

namespace ProfessionalTradingStrategy

/-- Embedding of `MAX_POSITION_SIZE` constructor constant. -/
def MAX_POSITION_SIZE : ℚ := 3 / 100

/-- Embedding of `PROFIT_TARGET_PCT`: 3% profit target. -/
def PROFIT_TARGET_PCT : ℚ := 3

/-- Embedding of `STOP_LOSS_PCT`: 2% stop loss. -/
def STOP_LOSS_PCT : ℚ := 2

/-- Embedding of `TRAILING_STOP_PCT`: 1% trailing stop. -/
def TRAILING_STOP_PCT : ℚ := 1

/-- Embedding of `RSI_OVERSOLD` threshold. -/
def RSI_OVERSOLD : ℚ := 30

/-- Embedding of `RSI_OVERBOUGHT` threshold. -/
def RSI_OVERBOUGHT : ℚ := 70

/-- Embedding of `MAX_CONSECUTIVE_LOSSES`. -/
def MAX_CONSECUTIVE_LOSSES : ℚ := 3

/-- Embedding of `MIN_VOLUME_THRESHOLD`. -/
def MIN_VOLUME_THRESHOLD : ℚ := 1000

/-- Embedding of `VOLATILITY_MULTIPLIER`. -/
def VOLATILITY_MULTIPLIER : ℚ := 12 / 10

/-- Embedding of `MIN_POSITION_VALUE`: $10 minimum position value. -/
def MIN_POSITION_VALUE : ℚ := 10

/-- Embedding of `getLatestRSI`: last entry value of the rsi series, with `|| 50`
fallbacks for an absent series, an empty series, or a zero (falsy)
entry value. -/
def getLatestRSI (technicalData : TechnicalData) : ℚ :=
  match technicalData.rsi with
  | some l =>
    match l.getLast? with
    | some v => if v = 0 then 50 else v
    | none => 50
  | none => 50

/-- Embedding of `getLatestSMA`: last entry value of the sma series, falling back to
`technicalData.currentPrice` (itself `|| 0` when absent). -/
def getLatestSMA (technicalData : TechnicalData) : ℚ :=
  match technicalData.sma with
  | some l =>
    match l.getLast? with
    | some v => if v = 0 then technicalData.currentPrice.getD 0 else v
    | none => technicalData.currentPrice.getD 0
  | none => technicalData.currentPrice.getD 0

/-- Embedding of `determineTrend` of the strategy: strict monotonicity of the last
three sma entry values. -/
def determineTrend (technicalData : TechnicalData) : Trend :=
  match technicalData.sma with
  | some l =>
    if 3 ≤ l.length then
      let latest := (l.get? (l.length - 1)).getD 0
      let previous := (l.get? (l.length - 2)).getD 0
      let older := (l.get? (l.length - 3)).getD 0
      if previous < latest ∧ older < previous then .UPTREND
      else if latest < previous ∧ previous < older then .DOWNTREND
      else .NEUTRAL
    else .NEUTRAL
  | none => .NEUTRAL

/-- Day-over-day returns over the first `min(length, 20)` bars, skipping
non-positive previous closes, as in `calculateVolatility`. -/
def volReturns (closes : List ℚ) : List ℚ :=
  (List.range (min closes.length 20)).filterMap fun i =>
    if i = 0 then none
    else
      let prev := (closes.get? (i - 1)).getD 0
      let curr := (closes.get? i).getD 0
      if 0 < prev then some ((curr - prev) / prev) else none

/-- Embedding of `calculateVolatility`: stdev of recent returns, defaulting to 0.02 on
short histories.  `Math.sqrt` is approximated by `Rat.sqrt`; no claim
depends on the numeric value. -/
def calculateVolatility (technicalData : TechnicalData) : ℚ :=
  if technicalData.historical.length < 10 then 2 / 100
  else
    let closes := technicalData.historical.map Bar.close
    let returns := volReturns closes
    if returns.length < 2 then 2 / 100
    else
      let mean := returns.foldl (· + ·) 0 / (returns.length : ℚ)
      let variance :=
        (returns.foldl (fun sum ret => sum + (ret - mean) ^ 2) 0) / (returns.length : ℚ)
      Rat.sqrt variance

/-- Embedding of `hasConsecutiveLosses`: stubbed to `false` in the source
("Implement based on trade history"). -/
def hasConsecutiveLosses (_lastTrade : Option LastTrade) (_maxLosses : ℚ) : Bool :=
  false

/-- Embedding of `assessRisk`: builds the risk record; with the stubbed loss check the
pause branch is dead and the default record is always returned. -/
def assessRisk (_currentPosition : Option Position) (_accountInfo : Option AccountInfo)
    (lastTrade : Option LastTrade) : RiskMetrics :=
  let risks : RiskMetrics :=
    { shouldPause := false, pauseReasons := [], positionSizeMultiplier := 1
      riskLevel := "LOW" }
  if hasConsecutiveLosses lastTrade MAX_CONSECUTIVE_LOSSES then
    { risks with
      shouldPause := true
      pauseReasons := risks.pauseReasons ++
        [ratStr MAX_CONSECUTIVE_LOSSES ++ " consecutive losses - pausing to reassess"]
      riskLevel := "HIGH" }
  else risks

/-- Embedding of `validatePosition`: a position is valid when present, with quantity
above 0.001 and value at least `MIN_POSITION_VALUE`. -/
def validatePosition (position : Option Position) (currentPrice : ℚ) : Bool :=
  match position with
  | none => false
  | some p =>
    let quantity := p.quantity
    let positionValue := quantity * currentPrice
    let hasValidQuantity := decide (1 / 1000 < quantity)
    let hasValidValue := decide (MIN_POSITION_VALUE ≤ positionValue)
    hasValidQuantity && hasValidValue

/-- Embedding of `getBullishSignals`: keeps the signals whose string form or object
type contains the substring BUY (a falsy empty type fails the filter). -/
def getBullishSignals (signals : List SignalVal) : List SignalVal :=
  signals.filter fun s =>
    match s with
    | .str t => strContains t "BUY"
    | .obj t _ => (!t.isEmpty) && strContains t "BUY"

/-- Embedding of `getBearishSignals`: same filter for the substring SELL. -/
def getBearishSignals (signals : List SignalVal) : List SignalVal :=
  signals.filter fun s =>
    match s with
    | .str t => strContains t "SELL"
    | .obj t _ => (!t.isEmpty) && strContains t "SELL"

/-- Embedding of `calculateBuyScore` (0-10): RSI depth, price vs SMA20, trend,
bullish-signal count capped at 2, and volume confirmation. -/
def calculateBuyScore (rsi sma20 currentPrice : ℚ) (trend : Trend)
    (bullishSignals : List SignalVal) (volume : ℚ) : ℚ :=
  let rsiPoints : ℚ :=
    if rsi < RSI_OVERSOLD then 3
    else if rsi < RSI_OVERSOLD + 10 then 2
    else if rsi < 50 then 1
    else 0
  let smaDistance := (currentPrice - sma20) / sma20
  let smaPoints : ℚ :=
    if 2 / 100 < smaDistance then 2
    else if 0 < smaDistance then 1
    else 0
  let trendPoints : ℚ :=
    if trend = .UPTREND then 2
    else if trend = .NEUTRAL then 1
    else 0
  let signalPoints : ℚ := min 2 (bullishSignals.length : ℚ)
  let volumePoints : ℚ := if MIN_VOLUME_THRESHOLD * 2 < volume then 1 else 0
  min 10 (rsiPoints + smaPoints + trendPoints + signalPoints + volumePoints)

/-- Embedding of `calculateTechnicalSellScore` (0-10): RSI overbought depth, price vs
SMA20, trend with downtrend weighting, bearish-signal count capped
at 2. -/
def calculateTechnicalSellScore (rsi sma20 currentPrice : ℚ) (trend : Trend)
    (bearishSignals : List SignalVal) : ℚ :=
  let rsiPoints : ℚ :=
    if RSI_OVERBOUGHT + 10 < rsi then 3
    else if RSI_OVERBOUGHT < rsi then 2
    else if 60 < rsi then 1
    else 0
  let smaDistance := (currentPrice - sma20) / sma20
  let smaPoints : ℚ :=
    if smaDistance < -(3 / 100) then 2
    else if smaDistance < -(1 / 100) then 1
    else 0
  let trendPoints : ℚ :=
    if trend = .DOWNTREND then 3
    else if trend = .NEUTRAL then 1
    else 0
  let signalPoints : ℚ := min 2 (bearishSignals.length : ℚ)
  min 10 (rsiPoints + smaPoints + trendPoints + signalPoints)

/-- Embedding of `calculatePositionSize`: base size damped by volatility (clamped to
[0.5, 1.5]), scaled by the risk multiplier and price tier, clamped to
[0.01, MAX_POSITION_SIZE]. -/
def calculatePositionSize (currentPrice volatility : ℚ) (riskMetrics : RiskMetrics) : ℚ :=
  let baseSize := MAX_POSITION_SIZE
  let volAdjustment := max (1 / 2) (min (3 / 2) (1 / (volatility * VOLATILITY_MULTIPLIER)))
  let baseSize := baseSize * volAdjustment
  let baseSize := baseSize * riskMetrics.positionSizeMultiplier
  let baseSize :=
    if 4000 < currentPrice then baseSize * (8 / 10)
    else if 3000 < currentPrice then baseSize * (9 / 10)
    else baseSize
  max (1 / 100) (min MAX_POSITION_SIZE baseSize)

/-- Embedding of `manageExistingPosition`: priority-ordered exits — stop loss, take
profit, trailing stop, technical sell — else hold. -/
def manageExistingPosition (position : Position) (currentPrice rsi sma20 : ℚ)
    (trend : Trend) (signals : List SignalVal) (_riskMetrics : RiskMetrics) : Decision :=
  let pnlPercentage := (currentPrice - position.averagePrice) / position.averagePrice * 100
  let unrealizedPnL := (currentPrice - position.averagePrice) * position.quantity
  let positionValue := position.quantity * currentPrice
  if pnlPercentage ≤ -STOP_LOSS_PCT then
    { action := .SELL
      quantity := position.quantity
      confidence := 98 / 100
      urgency := .IMMEDIATE
      reasoning :=
        [ "STOP LOSS TRIGGERED: " ++ ratStr pnlPercentage ++ "% loss"
        , "Stop loss threshold: -" ++ ratStr STOP_LOSS_PCT ++ "%"
        , "Position value: $" ++ ratStr positionValue
        , "Protecting capital from further losses"
        , "Unrealized P&L: $" ++ ratStr unrealizedPnL ] }
  else if PROFIT_TARGET_PCT ≤ pnlPercentage then
    { action := .SELL
      quantity := position.quantity
      confidence := 95 / 100
      urgency := .HIGH
      reasoning :=
        [ "PROFIT TARGET REACHED: " ++ ratStr pnlPercentage ++ "% profit"
        , "Target: " ++ ratStr PROFIT_TARGET_PCT ++ "%"
        , "Position value: $" ++ ratStr positionValue
        , "Securing gains as planned"
        , "Realized profit: $" ++ ratStr unrealizedPnL ] }
  else
    let trailingExit : Option Decision :=
      match position.highWaterMark with
      | some highWaterMark =>
        if highWaterMark ≠ 0 ∧ position.averagePrice < highWaterMark then
          let trailingStopPrice := highWaterMark * (1 - TRAILING_STOP_PCT / 100)
          let trailingStopLoss :=
            (trailingStopPrice - position.averagePrice) / position.averagePrice * 100
          if currentPrice ≤ trailingStopPrice ∧ 0 < trailingStopLoss then
            some
              { action := .SELL
                quantity := position.quantity
                confidence := 9 / 10
                urgency := .HIGH
                reasoning :=
                  [ "TRAILING STOP ACTIVATED: Price fell below trailing stop"
                  , "High water mark: $" ++ ratStr highWaterMark
                  , "Trailing stop price: $" ++ ratStr trailingStopPrice
                  , "Current price: $" ++ ratStr currentPrice
                  , "Protecting accumulated gains of " ++ ratStr trailingStopLoss ++ "%" ] }
          else none
        else none
      | none => none
    match trailingExit with
    | some d => d
    | none =>
      let bearishSignals := getBearishSignals signals
      let technicalSellScore :=
        calculateTechnicalSellScore rsi sma20 currentPrice trend bearishSignals
      if 8 ≤ technicalSellScore ∧ -1 < pnlPercentage then
        { action := .SELL
          quantity := position.quantity
          confidence := min (85 / 100) (technicalSellScore / 10)
          urgency := .MEDIUM
          reasoning :=
            [ "STRONG TECHNICAL SELL SIGNAL: Score " ++ ratStr technicalSellScore ++ "/10"
            , "RSI: " ++ ratStr rsi
            , "Price vs SMA20: " ++ ratStr ((currentPrice - sma20) / sma20 * 100) ++ "%"
            , "Trend consideration"
            , "Bearish signals: " ++ ratStr (bearishSignals.length : ℚ)
            , "Current P&L: " ++ ratStr pnlPercentage ++ "% (safe to sell)" ] }
      else
        { action := .HOLD
          quantity := 0
          confidence := 6 / 10
          urgency := .LOW
          reasoning :=
            [ "HOLDING POSITION: " ++ ratStr position.quantity ++ " ETH @ $" ++
                ratStr position.averagePrice
            , "Current value: $" ++ ratStr positionValue
            , "Current P&L: " ++ ratStr pnlPercentage ++ "% ($" ++ ratStr unrealizedPnL ++ ")"
            , "Stop loss trigger: " ++ ratStr STOP_LOSS_PCT ++ "%"
            , "Profit target: " ++ ratStr PROFIT_TARGET_PCT ++ "%"
            , "Technical sell score: " ++ ratStr technicalSellScore ++ "/10 (need 8+ for sell)"
            , "Position meets minimum criteria - continuing to monitor" ] }

/-- Embedding of `evaluateNewPosition`: pre-checks (risk pause, volume gate), then the
bounded buy score with entry at 7/10. -/
def evaluateNewPosition (currentPrice rsi sma20 : ℚ) (trend : Trend)
    (signals : List SignalVal) (volatility volume : ℚ)
    (riskMetrics : RiskMetrics) : Decision :=
  if riskMetrics.shouldPause then
    { action := .HOLD, quantity := 0, confidence := 0, urgency := .LOW
      reasoning := riskMetrics.pauseReasons }
  else if volume < MIN_VOLUME_THRESHOLD then
    { action := .HOLD, quantity := 0, confidence := 0, urgency := .LOW
      reasoning :=
        ["Insufficient trading volume: " ++ ratStr volume ++ " < " ++
          ratStr MIN_VOLUME_THRESHOLD] }
  else
    let bullishSignals := getBullishSignals signals
    let buyScore := calculateBuyScore rsi sma20 currentPrice trend bullishSignals volume
    if 7 ≤ buyScore then
      let baseSize := calculatePositionSize currentPrice volatility riskMetrics
      { action := .BUY
        quantity := baseSize
        confidence := min (95 / 100) (buyScore / 10)
        urgency := if 9 ≤ buyScore then .HIGH else .MEDIUM
        reasoning :=
          [ "STRONG BUY SIGNAL: Score " ++ ratStr buyScore ++ "/10"
          , "Entry price: $" ++ ratStr currentPrice
          , "Position size: " ++ ratStr baseSize ++ " ETH"
          , "RSI: " ++ ratStr rsi
          , "Price vs SMA20: " ++ ratStr ((currentPrice - sma20) / sma20 * 100) ++ "%"
          , "Bullish signals: " ++ ratStr (bullishSignals.length : ℚ)
          , "Volume: " ++ ratStr volume
          , "Stop loss will be set at " ++ ratStr STOP_LOSS_PCT ++ "%"
          , "Profit target at " ++ ratStr PROFIT_TARGET_PCT ++ "%" ] }
    else
      { action := .HOLD
        quantity := 0
        confidence := 3 / 10
        urgency := .LOW
        reasoning :=
          [ "WAITING FOR CLEAR ENTRY SIGNAL: Buy score " ++ ratStr buyScore ++ "/10 (need 7+)"
          , "Current price: $" ++ ratStr currentPrice
          , "RSI: " ++ ratStr rsi
          , "Price vs SMA20: " ++ ratStr ((currentPrice - sma20) / sma20 * 100) ++ "%"
          , "Volume: " ++ ratStr volume
          , "Bullish signals: " ++ ratStr (bullishSignals.length : ℚ)
          , "Waiting for higher probability setup" ] }

/-- Embedding of `analyze`: derives indicators from the technical data, validates the
position, and dispatches to position management or entry evaluation
(`validatePosition` rejects a null position, so an absent position takes
the entry path). -/
def analyze (technicalData : TechnicalData) (currentPosition : Option Position)
    (lastTrade : Option LastTrade) (accountInfo : Option AccountInfo) : Decision :=
  let currentPrice := technicalData.currentPrice.getD 0
  let signals := technicalData.signals
  let rsi := getLatestRSI technicalData
  let sma20 := getLatestSMA technicalData
  let volatility := calculateVolatility technicalData
  let volume := technicalData.volume.getD 0
  let trend := determineTrend technicalData
  let riskMetrics := assessRisk currentPosition accountInfo lastTrade
  match currentPosition with
  | some position =>
    if validatePosition (some position) currentPrice then
      manageExistingPosition position currentPrice rsi sma20 trend signals riskMetrics
    else
      evaluateNewPosition currentPrice rsi sma20 trend signals volatility volume riskMetrics
  | none =>
    evaluateNewPosition currentPrice rsi sma20 trend signals volatility volume riskMetrics

end ProfessionalTradingStrategy

namespace TradingStrategy

/-- Legacy `MAX_POSITION_SIZE`. -/
def MAX_POSITION_SIZE : ℚ := 2 / 100

/-- Legacy `PROFIT_TARGET_PCT`: 4%. -/
def PROFIT_TARGET_PCT : ℚ := 4

/-- Legacy `STOP_LOSS_PCT`: 2.5%. -/
def STOP_LOSS_PCT : ℚ := 5 / 2

/-- Legacy `RSI_OVERSOLD`: 35. -/
def RSI_OVERSOLD : ℚ := 35

/-- Legacy `RSI_OVERBOUGHT`: 65. -/
def RSI_OVERBOUGHT : ℚ := 65

/-- Legacy `COOLDOWN_MINUTES`: 15. -/
def COOLDOWN_MINUTES : ℚ := 15

/-- Legacy `getLatestRSI` (same body as the professional variant). -/
def getLatestRSI (technicalData : TechnicalData) : ℚ :=
  match technicalData.rsi with
  | some l =>
    match l.getLast? with
    | some v => if v = 0 then 50 else v
    | none => 50
  | none => 50

/-- Legacy `getLatestSMA` (same body as the professional variant). -/
def getLatestSMA (technicalData : TechnicalData) : ℚ :=
  match technicalData.sma with
  | some l =>
    match l.getLast? with
    | some v => if v = 0 then technicalData.currentPrice.getD 0 else v
    | none => technicalData.currentPrice.getD 0
  | none => technicalData.currentPrice.getD 0

/-- Legacy `determineTrend` (same body as the professional variant). -/
def determineTrend (technicalData : TechnicalData) : Trend :=
  match technicalData.sma with
  | some l =>
    if 3 ≤ l.length then
      let latest := (l.get? (l.length - 1)).getD 0
      let previous := (l.get? (l.length - 2)).getD 0
      let older := (l.get? (l.length - 3)).getD 0
      if previous < latest ∧ older < previous then .UPTREND
      else if latest < previous ∧ previous < older then .DOWNTREND
      else .NEUTRAL
    else .NEUTRAL
  | none => .NEUTRAL

/-- Legacy bullish filter (same substring match on BUY). -/
def getBullishSignals (signals : List SignalVal) : List SignalVal :=
  signals.filter fun s =>
    match s with
    | .str t => strContains t "BUY"
    | .obj t _ => (!t.isEmpty) && strContains t "BUY"

/-- Legacy bearish filter (same substring match on SELL). -/
def getBearishSignals (signals : List SignalVal) : List SignalVal :=
  signals.filter fun s =>
    match s with
    | .str t => strContains t "SELL"
    | .obj t _ => (!t.isEmpty) && strContains t "SELL"

/-- Legacy `shouldBuy`: all five conservative conditions must hold. -/
def shouldBuy (rsi sma20 currentPrice : ℚ) (trend : Trend)
    (bullishSignals bearishSignals : List SignalVal) : Bool :=
  let conditions : List Bool :=
    [ decide (rsi < RSI_OVERSOLD)
    , decide (trend ≠ .DOWNTREND)
    , decide (1 ≤ bullishSignals.length)
    , decide (bearishSignals.length ≤ 1)
    , decide (sma20 * (99 / 100) < currentPrice) ]
  let trueConditions := (conditions.filter id).length
  5 ≤ trueConditions

/-- Legacy `shouldSellOnTechnicals`: at least two of the four conditions. -/
def shouldSellOnTechnicals (rsi sma20 currentPrice : ℚ) (trend : Trend)
    (bearishSignals : List SignalVal) : Bool :=
  let conditions : List Bool :=
    [ decide (RSI_OVERBOUGHT < rsi)
    , decide (currentPrice < sma20 * (98 / 100))
    , decide (2 ≤ bearishSignals.length)
    , decide (trend = .DOWNTREND) ]
  let trueConditions := (conditions.filter id).length
  2 ≤ trueConditions

/-- Legacy `calculateConfidence`: signal counts mapped onto a 0-100 scale
and clamped to [20, 100]. -/
def calculateConfidence (bullishSignals bearishSignals : List SignalVal)
    (action : Action) : ℚ :=
  let confidence : ℚ :=
    if action = .BUY then
      min ((bullishSignals.length : ℚ) * 20 + 30) 100 - (bearishSignals.length : ℚ) * 15
    else if action = .SELL then
      min ((bearishSignals.length : ℚ) * 20 + 30) 100 - (bullishSignals.length : ℚ) * 15
    else 0
  max 20 (min 100 confidence)

/-- Legacy `calculatePositionSize`: price-tiered constant sizes. -/
def calculatePositionSize (currentPrice : ℚ) : ℚ :=
  if 4000 < currentPrice then 1 / 100
  else if 3000 < currentPrice then 15 / 1000
  else if 2000 < currentPrice then 2 / 100
  else MAX_POSITION_SIZE

/-- Legacy `analyze`.  `Date.now()` is supplied as the explicit `now`
parameter (milliseconds); it is read only by the cooldown check. -/
def analyze (technicalData : TechnicalData) (currentPosition : Option Position)
    (lastTrade : Option LastTrade) (now : ℚ) : LegacyDecision :=
  let currentPrice := technicalData.currentPrice.getD 0
  let signals := technicalData.signals
  let rsi := getLatestRSI technicalData
  let sma20 := getLatestSMA technicalData
  let trend := determineTrend technicalData
  let pnlPercentage :=
    match currentPosition with
    | some p => if 0 < p.quantity then (currentPrice - p.averagePrice) / p.averagePrice * 100 else 0
    | none => 0
  let unrealizedPnL :=
    match currentPosition with
    | some p => if 0 < p.quantity then (currentPrice - p.averagePrice) * p.quantity else 0
    | none => 0
  let bullishSignals := getBullishSignals signals
  let bearishSignals := getBearishSignals signals
  let inCooldown :=
    match lastTrade with
    | some t => decide ((now - t.timestamp) / 60000 < COOLDOWN_MINUTES)
    | none => false
  if inCooldown then
    { action := .HOLD, quantity := 0, confidence := 0
      reasoning := ["In cooldown period"] }
  else
    let baseQuantity := calculatePositionSize currentPrice
    match currentPosition with
    | some p =>
      if 0 < p.quantity then
        if PROFIT_TARGET_PCT ≤ pnlPercentage then
          { action := .SELL, quantity := p.quantity, confidence := 95 / 100
            reasoning :=
              [ "PROFIT TARGET HIT: " ++ ratStr pnlPercentage ++ "% profit"
              , "Target: " ++ ratStr PROFIT_TARGET_PCT ++ "%"
              , "Unrealized P&L: $" ++ ratStr unrealizedPnL ] }
        else if pnlPercentage ≤ -STOP_LOSS_PCT then
          { action := .SELL, quantity := p.quantity, confidence := 9 / 10
            reasoning :=
              [ "STOP LOSS TRIGGERED: " ++ ratStr pnlPercentage ++ "% loss"
              , "Stop loss: -" ++ ratStr STOP_LOSS_PCT ++ "%"
              , "Unrealized P&L: $" ++ ratStr unrealizedPnL ] }
        else if shouldSellOnTechnicals rsi sma20 currentPrice trend bearishSignals then
          { action := .SELL, quantity := p.quantity, confidence := 3 / 4
            reasoning :=
              [ "Technical sell signal triggered"
              , "RSI: " ++ ratStr rsi
              , "Bearish signals: " ++ ratStr (bearishSignals.length : ℚ)
              , "Current P&L: " ++ ratStr pnlPercentage ++ "%" ] }
        else
          { action := .HOLD, quantity := 0, confidence := 0
            reasoning :=
              [ "Holding position: " ++ ratStr p.quantity ++ " @ $" ++ ratStr p.averagePrice
              , "Current P&L: " ++ ratStr pnlPercentage ++ "% ($" ++ ratStr unrealizedPnL ++ ")"
              , "No sell signals triggered" ] }
      else
        legacyFlat currentPrice rsi sma20 trend bullishSignals bearishSignals baseQuantity
    | none =>
      legacyFlat currentPrice rsi sma20 trend bullishSignals bearishSignals baseQuantity
where
  /-- The no-position branch of the legacy `analyze`. -/
  legacyFlat (currentPrice rsi sma20 : ℚ) (trend : Trend)
      (bullishSignals bearishSignals : List SignalVal) (baseQuantity : ℚ) : LegacyDecision :=
    if shouldBuy rsi sma20 currentPrice trend bullishSignals bearishSignals then
      { action := .BUY
        quantity := baseQuantity
        confidence := calculateConfidence bullishSignals bearishSignals .BUY
        reasoning :=
          [ "No current position - safe to buy"
          , "RSI: " ++ ratStr rsi
          , "Bullish signals: " ++ ratStr (bullishSignals.length : ℚ)
          , "Current Price: $" ++ ratStr currentPrice
          , "Position size: " ++ ratStr baseQuantity ++ " ETH" ] }
    else
      { action := .HOLD, quantity := 0, confidence := 0
        reasoning :=
          [ "No buy signal - waiting for better entry"
          , "RSI: " ++ ratStr rsi
          , "Current Price: $" ++ ratStr currentPrice ] }

end TradingStrategy

open ProfessionalTradingStrategy

/-- The risk record is constant: the consecutive-loss check is stubbed to
false in the source. -/
lemma assessRisk_eq (pos : Option Position) (ai : Option AccountInfo) (lt : Option LastTrade) :
    assessRisk pos ai lt =
      { shouldPause := false, pauseReasons := [], positionSizeMultiplier := 1
        riskLevel := "LOW" } := rfl

/-- Dispatch of `analyze` on a validated position. -/
lemma analyze_valid (td : TechnicalData) (pos : Position) (lt : Option LastTrade)
    (ai : Option AccountInfo)
    (hv : validatePosition (some pos) (td.currentPrice.getD 0) = true) :
    analyze td (some pos) lt ai =
      manageExistingPosition pos (td.currentPrice.getD 0) (getLatestRSI td)
        (getLatestSMA td) (determineTrend td) td.signals (assessRisk (some pos) ai lt) := by
  simp only [analyze, hv, if_true]

/-- Dispatch of `analyze` when the position is absent or invalid. -/
lemma analyze_flat (td : TechnicalData) (pos : Option Position) (lt : Option LastTrade)
    (ai : Option AccountInfo)
    (hflat : validatePosition pos (td.currentPrice.getD 0) = false) :
    analyze td pos lt ai =
      evaluateNewPosition (td.currentPrice.getD 0) (getLatestRSI td) (getLatestSMA td)
        (determineTrend td) td.signals (calculateVolatility td) (td.volume.getD 0)
        (assessRisk pos ai lt) := by
  cases pos with
  | none => simp only [analyze]
  | some p => simp only [analyze, hflat, Bool.false_eq_true, if_false]

/-- Concrete technical data for the stop-loss scenario: current price
97.5, everything else absent. -/
def tdStopLoss : TechnicalData := { currentPrice := some (195 / 2) }

/-- Concrete position for the stop-loss scenario: 1 unit at average
price 100. -/
def posStopLoss : Position := { quantity := 1, averagePrice := 100 }

/-- Claim C1: for every position passing validation, whenever the
unrealized P&L percentage is at or below minus the stop-loss percentage,
`analyze` sells the full quantity with confidence 0.98 and urgency
IMMEDIATE, before any other exit rule is consulted (the conclusion holds
for arbitrary signals, rsi, sma and trend inputs). -/
theorem stop_loss_fires_first (td : TechnicalData) (pos : Position)
    (lt : Option LastTrade) (ai : Option AccountInfo)
    (hv : validatePosition (some pos) (td.currentPrice.getD 0) = true)
    (hsl : (td.currentPrice.getD 0 - pos.averagePrice) / pos.averagePrice * 100
      ≤ -STOP_LOSS_PCT) :
    (analyze td (some pos) lt ai).action = .SELL ∧
    (analyze td (some pos) lt ai).quantity = pos.quantity ∧
    (analyze td (some pos) lt ai).confidence = 98 / 100 ∧
    (analyze td (some pos) lt ai).urgency = .IMMEDIATE := by
  rw [analyze_valid td pos lt ai hv]
  unfold manageExistingPosition
  rw [if_pos hsl]
  exact ⟨rfl, rfl, rfl, rfl⟩

/-- Witness for C1: the spec scenario, position of quantity 1 at average
price 100 and current price 97.5 (a 2.5% loss). -/
theorem stop_loss_fires_first_witness :
    (analyze tdStopLoss (some posStopLoss) none none).action = .SELL ∧
    (analyze tdStopLoss (some posStopLoss) none none).quantity = 1 ∧
    (analyze tdStopLoss (some posStopLoss) none none).urgency = .IMMEDIATE := by
  have h := stop_loss_fires_first tdStopLoss posStopLoss none none
    (by norm_num [validatePosition, tdStopLoss, posStopLoss, MIN_POSITION_VALUE])
    (by norm_num [tdStopLoss, posStopLoss, STOP_LOSS_PCT])
  exact ⟨h.1, h.2.1, h.2.2.2⟩

/-- Concrete technical data for the ghost-position scenario: current
price 50. -/
def tdGhost : TechnicalData := { currentPrice := some 50 }

/-- The ghost position of the spec scenario: 0.0001 units at average
price 50 (value $0.005). -/
def posGhost : Position := { quantity := 1 / 10000, averagePrice := 50 }

/-- Claim C4: a position failing `validatePosition` is treated exactly as
no position: `analyze` with the invalid position returns the same
decision as `analyze` with no position at all (FLAT entry logic, no
error). -/
theorem ghost_position_treated_as_flat (td : TechnicalData) (pos : Position)
    (lt : Option LastTrade) (ai : Option AccountInfo)
    (h : validatePosition (some pos) (td.currentPrice.getD 0) = false) :
    analyze td (some pos) lt ai = analyze td none lt ai := by
  rw [analyze_flat td (some pos) lt ai h,
    analyze_flat td none lt ai rfl, assessRisk_eq, assessRisk_eq]

/-- Witness for C4: the spec ghost scenario, quantity 0.0001 at price 50
fails validation and takes the FLAT path. -/
theorem ghost_position_treated_as_flat_witness :
    validatePosition (some posGhost) (tdGhost.currentPrice.getD 0) = false ∧
    analyze tdGhost (some posGhost) none none = analyze tdGhost none none none := by
  have hval : validatePosition (some posGhost) (tdGhost.currentPrice.getD 0) = false := by
    norm_num [validatePosition, tdGhost, posGhost, MIN_POSITION_VALUE]
  exact ⟨hval, ghost_position_treated_as_flat tdGhost posGhost none none hval⟩

/-- Concrete technical data for the volume-gate scenario: every buy
sub-score is high (RSI 25, uptrend, price far above SMA, a BUY signal)
but volume 500 is below the 1000 minimum. -/
def tdLowVolume : TechnicalData :=
  { currentPrice := some 10, volume := some 500, signals := [.str "BUY"]
    rsi := some [25], sma := some [1, 2, 3] }

/-- Claim C6: in the FLAT state, a volume below the minimum threshold
short-circuits `analyze` to HOLD with confidence 0, whatever the buy
score would have been. -/
theorem volume_gate_short_circuits (td : TechnicalData) (pos : Option Position)
    (lt : Option LastTrade) (ai : Option AccountInfo)
    (hflat : validatePosition pos (td.currentPrice.getD 0) = false)
    (hvol : td.volume.getD 0 < MIN_VOLUME_THRESHOLD) :
    (analyze td pos lt ai).action = .HOLD ∧ (analyze td pos lt ai).confidence = 0 := by
  rw [analyze_flat td pos lt ai hflat]
  unfold evaluateNewPosition
  rw [assessRisk_eq]
  rw [if_neg (by simp), if_pos hvol]
  exact ⟨rfl, rfl⟩

/-- Witness for C6: with the strong-score low-volume data the decision is
HOLD at confidence 0. -/
theorem volume_gate_short_circuits_witness :
    (analyze tdLowVolume none none none).action = .HOLD ∧
    (analyze tdLowVolume none none none).confidence = 0 :=
  volume_gate_short_circuits tdLowVolume none none none rfl
    (by norm_num [tdLowVolume, MIN_VOLUME_THRESHOLD])

/-- Claim C9: `analyze` is deterministic — two calls on identical
technical data, position, last trade and account info return identical
decisions (in the embedding the engine is a pure function of exactly
these inputs, mirroring the source, which reads no mutable state between
calls). -/
theorem analyze_deterministic (td td' : TechnicalData) (pos pos' : Option Position)
    (lt lt' : Option LastTrade) (ai ai' : Option AccountInfo)
    (h1 : td = td') (h2 : pos = pos') (h3 : lt = lt') (h4 : ai = ai') :
    analyze td pos lt ai = analyze td' pos' lt' ai' := by
  subst h1; subst h2; subst h3; subst h4; rfl

/-- Witness for C9: the two calls coincide on the stop-loss scenario
inputs. -/
theorem analyze_deterministic_witness :
    analyze tdStopLoss (some posStopLoss) none none
      = analyze tdStopLoss (some posStopLoss) none none :=
  analyze_deterministic tdStopLoss tdStopLoss (some posStopLoss) (some posStopLoss)
    none none none none rfl rfl rfl rfl

/-- Concrete technical data for the flat low-score scenario: RSI 55,
price equal to SMA20 (100), flat SMA history (NEUTRAL trend), no
signals, volume exactly at the 1000 threshold. -/
def tdFlatLow : TechnicalData :=
  { currentPrice := some 100, volume := some 1000, rsi := some [55]
    sma := some [100, 100, 100] }

/-- Claim C2: in the FLAT state with no risk pause and volume at or above
the threshold, a buy score of at least 7 yields BUY with confidence
`min 0.95 (score/10)` and urgency HIGH iff the score is at least 9,
while a score below 7 yields HOLD with confidence 0.3. -/
theorem flat_entry_score_rules (td : TechnicalData) (pos : Option Position)
    (lt : Option LastTrade) (ai : Option AccountInfo)
    (hflat : validatePosition pos (td.currentPrice.getD 0) = false)
    (hpause : (assessRisk pos ai lt).shouldPause = false)
    (hvol : MIN_VOLUME_THRESHOLD ≤ td.volume.getD 0) :
    (7 ≤ calculateBuyScore (getLatestRSI td) (getLatestSMA td) (td.currentPrice.getD 0)
        (determineTrend td) (getBullishSignals td.signals) (td.volume.getD 0) →
      (analyze td pos lt ai).action = .BUY ∧
      (analyze td pos lt ai).confidence =
        min (95 / 100)
          (calculateBuyScore (getLatestRSI td) (getLatestSMA td) (td.currentPrice.getD 0)
            (determineTrend td) (getBullishSignals td.signals) (td.volume.getD 0) / 10) ∧
      (analyze td pos lt ai).urgency =
        (if 9 ≤ calculateBuyScore (getLatestRSI td) (getLatestSMA td)
            (td.currentPrice.getD 0) (determineTrend td) (getBullishSignals td.signals)
            (td.volume.getD 0) then Urgency.HIGH else Urgency.MEDIUM)) ∧
    (calculateBuyScore (getLatestRSI td) (getLatestSMA td) (td.currentPrice.getD 0)
        (determineTrend td) (getBullishSignals td.signals) (td.volume.getD 0) < 7 →
      (analyze td pos lt ai).action = .HOLD ∧
      (analyze td pos lt ai).confidence = 3 / 10) := by
  rw [analyze_flat td pos lt ai hflat, assessRisk_eq]
  unfold evaluateNewPosition
  rw [if_neg (by simp), if_neg (not_lt.mpr hvol)]
  constructor
  · intro h7
    rw [if_pos h7]
    exact ⟨rfl, rfl, rfl⟩
  · intro h7
    rw [if_neg (not_le.mpr h7)]
    exact ⟨rfl, rfl⟩

/-- Witness for C2: the spec scenario (RSI 55, price at SMA20, NEUTRAL
trend, no bullish signals, volume at threshold) scores 1 and holds with
confidence 0.3. -/
theorem flat_entry_score_rules_witness :
    (analyze tdFlatLow none none none).action = .HOLD ∧
    (analyze tdFlatLow none none none).confidence = 3 / 10 := by
  have hscore : calculateBuyScore (getLatestRSI tdFlatLow) (getLatestSMA tdFlatLow)
      (tdFlatLow.currentPrice.getD 0) (determineTrend tdFlatLow)
      (getBullishSignals tdFlatLow.signals) (tdFlatLow.volume.getD 0) < 7 := by
    norm_num [calculateBuyScore, getLatestRSI, getLatestSMA, determineTrend,
      getBullishSignals, tdFlatLow, RSI_OVERSOLD, MIN_VOLUME_THRESHOLD,
      List.getLast?]
    decide
  exact (flat_entry_score_rules tdFlatLow none none none rfl rfl
    (by norm_num [tdFlatLow, MIN_VOLUME_THRESHOLD])).2 hscore

/-- A 20-bar market history (more than 15 bars, fewer than 50). -/
def mdTwentyBars : MarketData :=
  { historical := List.replicate 20 { close := 1, volume := 1 }, currentPrice := 1
    volume := 1 }

/-- Counterexample to claim C3: a 20-bar history (at least 15 bars, which
the claim says suffices) still raises the insufficient-data error. -/
theorem insufficient_data_at_20_bars :
    TechnicalIndicators.calculate mdTwentyBars
      = .error "Not enough historical data for technical analysis" ∧
    15 ≤ mdTwentyBars.historical.length := ⟨rfl, by decide⟩

/-- Claim C3 (amended): `calculate` raises its insufficient-data error
exactly when the bar history has fewer than 50 bars (SMA50 needs 50
closes); with 50 or more bars it returns a snapshot without error. -/
theorem insufficient_data_iff_fewer_than_50_bars (md : MarketData) :
    TechnicalIndicators.isInsufficientData (TechnicalIndicators.calculate md)
      = decide (md.historical.length < 50) := by
  by_cases h : md.historical.length < 50
  · simp [TechnicalIndicators.calculate, TechnicalIndicators.isInsufficientData,
      List.length_map, h]
  · simp [TechnicalIndicators.calculate, TechnicalIndicators.isInsufficientData,
      List.length_map, h]

/-- Technical data with current price 95, volume 1500, and no rsi or sma
series at all. -/
def tdMissingRSI : TechnicalData := { currentPrice := some 95, volume := some 1500 }

/-- The same technical data with an actual neutral RSI reading of 50. -/
def tdNeutralRSI : TechnicalData :=
  { currentPrice := some 95, volume := some 1500, rsi := some [50] }

/-- Counterexample to claim C7: with the rsi and sma series absent, the
engine substitutes the neutral reading 50 for RSI and the current price
for SMA20, and the resulting decision is identical to the one computed
from a real RSI reading of 50 — absence is not represented distinctly. -/
theorem missing_rsi_defaults_to_50 :
    getLatestRSI tdMissingRSI = 50 ∧
    getLatestSMA tdMissingRSI = 95 ∧
    analyze tdMissingRSI none none none = analyze tdNeutralRSI none none none := by
  refine ⟨rfl, rfl, ?_⟩
  rw [analyze_flat tdMissingRSI none none none rfl,
    analyze_flat tdNeutralRSI none none none rfl]
  congr 1

/-- Claim C7 (amended): an absent or empty RSI series is read as the
neutral value 50, and an absent or empty SMA series is read as the
current price — the decision engine substitutes neutral defaults for
missing indicator inputs rather than representing absence distinctly. -/
theorem missing_series_neutral_defaults (td : TechnicalData) :
    ((td.rsi = none ∨ td.rsi = some []) → getLatestRSI td = 50) ∧
    ((td.sma = none ∨ td.sma = some []) → getLatestSMA td = td.currentPrice.getD 0) := by
  constructor
  · rintro (h | h) <;> simp [getLatestRSI, h]
  · rintro (h | h) <;> simp [getLatestSMA, h]

/-- Witness for the amended C7 at a concrete input with both series
absent and current price 87. -/
theorem missing_series_neutral_defaults_witness :
    getLatestRSI { currentPrice := some 87 } = 50 ∧
    getLatestSMA { currentPrice := some 87 } = 87 := by
  have h := missing_series_neutral_defaults { currentPrice := some 87 }
  exact ⟨h.1 (Or.inl rfl), h.2 (Or.inl rfl)⟩

/-- Claim C8: every signal emitted by the indicator engine has one of the
six tags RSI_OVERSOLD, RSI_OVERBOUGHT, SMA_BULLISH, SMA_BEARISH,
MACD_BULLISH, MACD_BEARISH, none of which contains BUY or SELL, so the
strategy filters drop them all and the signal sub-scores contribute
nothing. -/
theorem indicator_signals_never_match_strategy_filters
    (prices sma20 sma50 rsi : List ℚ) (macd : List MACDValue) :
    getBullishSignals (TechnicalIndicators.generateSignals prices sma20 sma50 rsi macd) = [] ∧
    getBearishSignals (TechnicalIndicators.generateSignals prices sma20 sma50 rsi macd) = [] := by
  constructor <;>
  · simp only [TechnicalIndicators.generateSignals]
    rcases rsi.getLast? with _ | r <;> rcases sma20.getLast? with _ | a <;>
      rcases sma50.getLast? with _ | b <;> rcases macd.getLast? with _ | m <;>
      dsimp only <;> (try split_ifs) <;> decide

/-- A percentage computed against a positive base is positive exactly
when the compared value exceeds the base. -/
lemma pnl_pct_pos_iff (a b : ℚ) (ha : 0 < a) : 0 < (b - a) / a * 100 ↔ a < b := by
  constructor
  · intro hpos
    by_contra hle
    push_neg at hle
    have h1 : b - a ≤ 0 := by linarith
    have h2 : (b - a) / a ≤ 0 := div_nonpos_iff.mpr (Or.inr ⟨h1, ha.le⟩)
    nlinarith
  · intro hab
    have h2 : 0 < (b - a) / a := div_pos (sub_pos.mpr hab) ha
    nlinarith

/-- The trailing-stop condition exactly as the code tests it: a truthy
high water mark above the average price, current price at or below the
trailing stop price, and a positive trailing-stop P&L percentage. -/
def trailingFires (pos : Position) (price : ℚ) : Prop :=
  ∃ hwm, pos.highWaterMark = some hwm ∧ (hwm ≠ 0 ∧ pos.averagePrice < hwm) ∧
    price ≤ hwm * (1 - TRAILING_STOP_PCT / 100) ∧
    0 < (hwm * (1 - TRAILING_STOP_PCT / 100) - pos.averagePrice) / pos.averagePrice * 100

/-- Shape of `manageExistingPosition` when neither stop loss nor take
profit fires: either the trailing-stop condition holds and the decision
is the trailing SELL of the full quantity with urgency HIGH, or it does
not hold and the decision is the technical sell (urgency MEDIUM) or the
hold (action HOLD). -/
lemma manage_after_sl_tp (pos : Position) (price rsi sma20 : ℚ) (trend : Trend)
    (signals : List SignalVal) (rm : RiskMetrics)
    (hnsl : ¬((price - pos.averagePrice) / pos.averagePrice * 100 ≤ -STOP_LOSS_PCT))
    (hntp : ¬(PROFIT_TARGET_PCT ≤ (price - pos.averagePrice) / pos.averagePrice * 100)) :
    (trailingFires pos price ∧
      (manageExistingPosition pos price rsi sma20 trend signals rm).action = .SELL ∧
      (manageExistingPosition pos price rsi sma20 trend signals rm).quantity = pos.quantity ∧
      (manageExistingPosition pos price rsi sma20 trend signals rm).urgency = .HIGH) ∨
    (¬trailingFires pos price ∧
      ((manageExistingPosition pos price rsi sma20 trend signals rm).urgency = .MEDIUM ∨
        (manageExistingPosition pos price rsi sma20 trend signals rm).action = .HOLD)) := by
  unfold manageExistingPosition
  rw [if_neg hnsl, if_neg hntp]
  split
  next hwm heq =>
    by_cases hc1 : hwm ≠ 0 ∧ pos.averagePrice < hwm
    · rw [if_pos hc1]
      by_cases hc2 : price ≤ hwm * (1 - TRAILING_STOP_PCT / 100) ∧
          0 < (hwm * (1 - TRAILING_STOP_PCT / 100) - pos.averagePrice) /
            pos.averagePrice * 100
      · rw [if_pos hc2]
        exact Or.inl ⟨⟨hwm, heq, hc1, hc2.1, hc2.2⟩, rfl, rfl, rfl⟩
      · rw [if_neg hc2]
        refine Or.inr ⟨?_, ?_⟩
        · rintro ⟨hwm2, hw2, hc12, hp2, hb2⟩
          rw [heq] at hw2
          injection hw2 with hww
          subst hww
          exact hc2 ⟨hp2, hb2⟩
        · by_cases hts : 8 ≤ calculateTechnicalSellScore rsi sma20 price trend
              (getBearishSignals signals) ∧
              -1 < (price - pos.averagePrice) / pos.averagePrice * 100
          · rw [if_pos hts]
            exact Or.inl rfl
          · rw [if_neg hts]
            exact Or.inr rfl
    · rw [if_neg hc1]
      refine Or.inr ⟨?_, ?_⟩
      · rintro ⟨hwm2, hw2, hc12, hp2, hb2⟩
        rw [heq] at hw2
        injection hw2 with hww
        subst hww
        exact hc1 hc12
      · by_cases hts : 8 ≤ calculateTechnicalSellScore rsi sma20 price trend
            (getBearishSignals signals) ∧
            -1 < (price - pos.averagePrice) / pos.averagePrice * 100
        · rw [if_pos hts]
          exact Or.inl rfl
        · rw [if_neg hts]
          exact Or.inr rfl
  next heq =>
    refine Or.inr ⟨?_, ?_⟩
    · rintro ⟨hwm2, hw2, hc12, hp2, hb2⟩
      rw [hw2] at heq
      simp at heq
    · by_cases hts : 8 ≤ calculateTechnicalSellScore rsi sma20 price trend
          (getBearishSignals signals) ∧
          -1 < (price - pos.averagePrice) / pos.averagePrice * 100
      · rw [if_pos hts]
        exact Or.inl rfl
      · rw [if_neg hts]
        exact Or.inr rfl

/-- Claim C5: for a validated position on which neither the stop loss nor
the take profit fired, `analyze` sells the full quantity with urgency
HIGH exactly when the position has a high water mark strictly above the
average price, the current price is at or below
`highWaterMark * (1 - trailingStopPct)`, and that trailing level is
itself above breakeven (the trailing stop never realizes a loss). -/
theorem trailing_stop_iff (td : TechnicalData) (pos : Position)
    (lt : Option LastTrade) (ai : Option AccountInfo)
    (hv : validatePosition (some pos) (td.currentPrice.getD 0) = true)
    (havg : 0 < pos.averagePrice)
    (hnsl : ¬((td.currentPrice.getD 0 - pos.averagePrice) / pos.averagePrice * 100
      ≤ -STOP_LOSS_PCT))
    (hntp : ¬(PROFIT_TARGET_PCT ≤
      (td.currentPrice.getD 0 - pos.averagePrice) / pos.averagePrice * 100)) :
    ((analyze td (some pos) lt ai).action = .SELL ∧
      (analyze td (some pos) lt ai).quantity = pos.quantity ∧
      (analyze td (some pos) lt ai).urgency = .HIGH)
    ↔ ∃ hwm, pos.highWaterMark = some hwm ∧ pos.averagePrice < hwm ∧
        td.currentPrice.getD 0 ≤ hwm * (1 - TRAILING_STOP_PCT / 100) ∧
        pos.averagePrice < hwm * (1 - TRAILING_STOP_PCT / 100) := by
  rw [analyze_valid td pos lt ai hv]
  have hshape := manage_after_sl_tp pos (td.currentPrice.getD 0) (getLatestRSI td)
    (getLatestSMA td) (determineTrend td) td.signals (assessRisk (some pos) ai lt)
    hnsl hntp
  constructor
  · rintro ⟨ha, hq, hu⟩
    rcases hshape with ⟨⟨hwm, hw, hc1, hp, hb⟩, _, _, _⟩ | ⟨hnf, hbad⟩
    · exact ⟨hwm, hw, hc1.2, hp, (pnl_pct_pos_iff _ _ havg).mp hb⟩
    · rcases hbad with hmed | hhold
      · rw [hu] at hmed
        exact absurd hmed (by decide)
      · rw [ha] at hhold
        exact absurd hhold (by decide)
  · rintro ⟨hwm, hw, hah, hp, hbe⟩
    rcases hshape with ⟨_, ha, hq, hu⟩ | ⟨hnf, _⟩
    · exact ⟨ha, hq, hu⟩
    · exact absurd ⟨hwm, hw, ⟨ne_of_gt (lt_trans havg hah), hah⟩, hp,
        (pnl_pct_pos_iff _ _ havg).mpr hbe⟩ hnf

/-- Technical data for the trailing-stop witness: current price 102. -/
def tdTrailing : TechnicalData := { currentPrice := some 102 }

/-- Position for the trailing-stop witness: 1 unit at 100 with high water
mark 110 (trailing stop price 108.9, P&L +2%, inside both stop bands). -/
def posTrailing : Position :=
  { quantity := 1, averagePrice := 100, highWaterMark := some 110 }

/-- Witness for C5: at price 102 with high water mark 110 the trailing
stop fires and the full position is sold with urgency HIGH. -/
theorem trailing_stop_iff_witness :
    (analyze tdTrailing (some posTrailing) none none).action = .SELL ∧
    (analyze tdTrailing (some posTrailing) none none).quantity = 1 ∧
    (analyze tdTrailing (some posTrailing) none none).urgency = .HIGH := by
  exact (trailing_stop_iff tdTrailing posTrailing none none
    (by norm_num [validatePosition, tdTrailing, posTrailing, MIN_POSITION_VALUE])
    (by norm_num [posTrailing])
    (by norm_num [tdTrailing, posTrailing, STOP_LOSS_PCT])
    (by norm_num [tdTrailing, posTrailing, PROFIT_TARGET_PCT])).mpr
    ⟨110, rfl, by norm_num [posTrailing],
      by norm_num [tdTrailing, TRAILING_STOP_PCT],
      by norm_num [posTrailing, TRAILING_STOP_PCT]⟩

/-- The buy score is a sum of nonnegative sub-scores. -/
lemma calculateBuyScore_nonneg (rsi sma20 price : ℚ) (trend : Trend)
    (bullishSignals : List SignalVal) (volume : ℚ) :
    0 ≤ calculateBuyScore rsi sma20 price trend bullishSignals volume := by
  unfold calculateBuyScore
  split_ifs <;> positivity

/-- The technical sell score is a sum of nonnegative sub-scores. -/
lemma calculateTechnicalSellScore_nonneg (rsi sma20 price : ℚ) (trend : Trend)
    (bearishSignals : List SignalVal) :
    0 ≤ calculateTechnicalSellScore rsi sma20 price trend bearishSignals := by
  unfold calculateTechnicalSellScore
  split_ifs <;> positivity

/-- Every entry-path decision carries a confidence in [0, 1]. -/
lemma evaluateNewPosition_confidence_bound (price rsi sma20 : ℚ) (trend : Trend)
    (signals : List SignalVal) (volatility volume : ℚ) (rm : RiskMetrics) :
    0 ≤ (evaluateNewPosition price rsi sma20 trend signals volatility volume rm).confidence ∧
    (evaluateNewPosition price rsi sma20 trend signals volatility volume rm).confidence ≤ 1 := by
  unfold evaluateNewPosition
  split_ifs with h1 h2
  · exact ⟨by norm_num, by norm_num⟩
  · exact ⟨by norm_num, by norm_num⟩
  · by_cases h3 : 7 ≤ calculateBuyScore rsi sma20 price trend (getBullishSignals signals) volume
    · rw [if_pos h3]
      dsimp only
      constructor
      · exact le_min (by norm_num) (div_nonneg
          (calculateBuyScore_nonneg rsi sma20 price trend (getBullishSignals signals) volume)
          (by norm_num))
      · exact (min_le_left _ _).trans (by norm_num)
    · rw [if_neg h3]
      exact ⟨by norm_num, by norm_num⟩

/-- Every position-management decision carries a confidence in [0, 1]. -/
lemma manage_confidence_bound (pos : Position) (price rsi sma20 : ℚ) (trend : Trend)
    (signals : List SignalVal) (rm : RiskMetrics) :
    0 ≤ (manageExistingPosition pos price rsi sma20 trend signals rm).confidence ∧
    (manageExistingPosition pos price rsi sma20 trend signals rm).confidence ≤ 1 := by
  have hsell : 0 ≤ calculateTechnicalSellScore rsi sma20 price trend
      (getBearishSignals signals) :=
    calculateTechnicalSellScore_nonneg rsi sma20 price trend (getBearishSignals signals)
  unfold manageExistingPosition
  by_cases h1 : (price - pos.averagePrice) / pos.averagePrice * 100 ≤ -STOP_LOSS_PCT
  · rw [if_pos h1]
    exact ⟨by norm_num, by norm_num⟩
  · rw [if_neg h1]
    by_cases h2 : PROFIT_TARGET_PCT ≤ (price - pos.averagePrice) / pos.averagePrice * 100
    · rw [if_pos h2]
      exact ⟨by norm_num, by norm_num⟩
    · rw [if_neg h2]
      split
      next hwm heq =>
        by_cases hc1 : hwm ≠ 0 ∧ pos.averagePrice < hwm
        · rw [if_pos hc1]
          by_cases hc2 : price ≤ hwm * (1 - TRAILING_STOP_PCT / 100) ∧
              0 < (hwm * (1 - TRAILING_STOP_PCT / 100) - pos.averagePrice) /
                pos.averagePrice * 100
          · rw [if_pos hc2]
            exact ⟨by norm_num, by norm_num⟩
          · rw [if_neg hc2]
            by_cases hts : 8 ≤ calculateTechnicalSellScore rsi sma20 price trend
                (getBearishSignals signals) ∧
                -1 < (price - pos.averagePrice) / pos.averagePrice * 100
            · rw [if_pos hts]
              dsimp only
              exact ⟨le_min (by norm_num) (div_nonneg hsell (by norm_num)),
                (min_le_left _ _).trans (by norm_num)⟩
            · rw [if_neg hts]
              exact ⟨by norm_num, by norm_num⟩
        · rw [if_neg hc1]
          by_cases hts : 8 ≤ calculateTechnicalSellScore rsi sma20 price trend
              (getBearishSignals signals) ∧
              -1 < (price - pos.averagePrice) / pos.averagePrice * 100
          · rw [if_pos hts]
            dsimp only
            exact ⟨le_min (by norm_num) (div_nonneg hsell (by norm_num)),
              (min_le_left _ _).trans (by norm_num)⟩
          · rw [if_neg hts]
            exact ⟨by norm_num, by norm_num⟩
      next heq =>
        by_cases hts : 8 ≤ calculateTechnicalSellScore rsi sma20 price trend
            (getBearishSignals signals) ∧
            -1 < (price - pos.averagePrice) / pos.averagePrice * 100
        · rw [if_pos hts]
          dsimp only
          exact ⟨le_min (by norm_num) (div_nonneg hsell (by norm_num)),
            (min_le_left _ _).trans (by norm_num)⟩
        · rw [if_neg hts]
          exact ⟨by norm_num, by norm_num⟩

/-- Claim C10 (amended): every decision of the professional strategy
carries a confidence in [0, 1]; the legacy variant in the same file uses
a 0-100 scale instead, so the two engines do not share one scale. -/
theorem professional_confidence_in_unit_interval (td : TechnicalData)
    (pos : Option Position) (lt : Option LastTrade) (ai : Option AccountInfo) :
    0 ≤ (analyze td pos lt ai).confidence ∧ (analyze td pos lt ai).confidence ≤ 1 := by
  cases pos with
  | none =>
    rw [analyze_flat td none lt ai rfl]
    exact evaluateNewPosition_confidence_bound _ _ _ _ _ _ _ _
  | some p =>
    by_cases hv : validatePosition (some p) (td.currentPrice.getD 0) = true
    · rw [analyze_valid td p lt ai hv]
      exact manage_confidence_bound _ _ _ _ _ _ _
    · rw [analyze_flat td (some p) lt ai (Bool.not_eq_true _ ▸ hv)]
      exact evaluateNewPosition_confidence_bound _ _ _ _ _ _ _ _

/-- Technical data on which the legacy strategy buys: RSI 30, flat SMA
history at 100, price 100, one BUY signal, ample volume. -/
def tdLegacy : TechnicalData :=
  { currentPrice := some 100, volume := some 5000, signals := [.str "BUY"]
    rsi := some [30], sma := some [100, 100, 100] }

/-- Counterexample to claim C10: the legacy `TradingStrategy.analyze`
(the `calculateConfidence` variant in the same strategy file) returns a
BUY decision whose confidence is 50 — on the 0-100 scale, far outside
[0, 1]. -/
theorem legacy_confidence_out_of_unit_interval :
    (TradingStrategy.analyze tdLegacy none none 0).action = .BUY ∧
    (TradingStrategy.analyze tdLegacy none none 0).confidence = 50 ∧
    1 < (TradingStrategy.analyze tdLegacy none none 0).confidence := by
  have htr : (decide (Trend.NEUTRAL = Trend.DOWNTREND)) = false := by decide
  norm_num [htr, TradingStrategy.analyze, TradingStrategy.analyze.legacyFlat,
    TradingStrategy.getLatestRSI, TradingStrategy.getLatestSMA,
    TradingStrategy.determineTrend, TradingStrategy.getBullishSignals,
    TradingStrategy.getBearishSignals, TradingStrategy.shouldBuy,
    TradingStrategy.calculateConfidence, TradingStrategy.calculatePositionSize,
    TradingStrategy.RSI_OVERSOLD, TradingStrategy.RSI_OVERBOUGHT,
    TradingStrategy.MAX_POSITION_SIZE, tdLegacy, List.getLast?, strContains,
    strContainsAux, hasPrefixChars, List.filter]

end Mission100M